import Mathlib

/-!
Verification development for the CV education-extraction engine
(`parse_education.py`).  The Python module is shallowly embedded below:

* a small backtracking regular-expression engine (`RE`, `mrun`, `reSearch`,
  `findallG1`, `reSub`) models the subset of Python `re` semantics used by the
  source (leftmost match, first-alternative preference, greedy/lazy
  quantifiers, word boundaries, lookahead, `re.IGNORECASE` as ASCII case
  folding);
* each regex of the source is transcribed into an `RE` value, and each Python
  function into a Lean function of the same name;
* theorems about the embedded functions settle the specification claims.
-/

namespace CVE

/-! ## ASCII character predicates (the document inputs are ASCII; Python's
`\s`, `\w`, `\d`, `str.lower` etc. restricted to ASCII).  All tests are
phrased over the character code (`Char.toNat`) so that they reduce fast in
the kernel. -/

/-- `\s` on a character code: space, tab, newline, carriage return,
vertical tab, form feed. -/
def spaceN (n : Nat) : Bool :=
  n == 32 || n == 9 || n == 10 || n == 13 || n == 11 || n == 12

/-- `\d` on a character code. -/
def digitN (n : Nat) : Bool := 48 ≤ n && n ≤ 57

/-- `[a-z]` on a character code. -/
def lowN (n : Nat) : Bool := 97 ≤ n && n ≤ 122

/-- `[A-Z]` on a character code. -/
def upN (n : Nat) : Bool := 65 ≤ n && n ≤ 90

/-- `[A-Za-z]` on a character code. -/
def alphaN (n : Nat) : Bool := lowN n || upN n

/-- `\w` on a character code. -/
def wordN (n : Nat) : Bool := alphaN n || digitN n || n == 95

/-- ASCII lower-casing of a character code. -/
def toLowN (n : Nat) : Nat := if upN n then n + 32 else n

/-- ASCII upper-casing of a character code. -/
def toUpN (n : Nat) : Nat := if lowN n then n - 32 else n

def isSpaceA (c : Char) : Bool := spaceN c.toNat

def isDigitA (c : Char) : Bool := digitN c.toNat

def isAlphaA (c : Char) : Bool := alphaN c.toNat

def toLowerA (c : Char) : Char :=
  if upN c.toNat then Char.ofNat (c.toNat + 32) else c

/-! ## Regular-expression abstract syntax

The constructors cover exactly the constructs appearing in the source's
patterns: literals, character classes (with negation), concatenation,
alternation (first-preference), greedy/lazy star, capture groups,
(negative) lookahead, `\b`, `^`, `$`. -/

inductive RE where
  | eps   : RE
  | dot   : RE                            -- `.` (anything but newline)
  | lit   : Char → RE
  | cls   : Bool → (Nat → Bool) → RE      -- negated?, membership (by char code)
  | cat   : RE → RE → RE
  | alt   : RE → RE → RE                  -- left alternative preferred
  | star  : Bool → RE → RE                -- greedy?
  | grp   : Nat → RE → RE                 -- capture group
  | look  : Bool → RE → RE                -- negative?
  | wordB : RE                            -- `\b`
  | bol   : RE                            -- `^` (no MULTILINE in the source)
  | eol   : RE                            -- `$` (end, or just before final \n)

/-- Matcher state: absolute position, remaining input, previous character
(for `\b`). -/
structure MSt where
  pos  : Nat
  rest : List Char
  prev : Option Char

/-- Captures: (group index, start, end); most recent first. -/
abbrev Caps := List (Nat × Nat × Nat)

/-- Literal comparison; under `re.IGNORECASE` Python folds case. -/
def charEq (ci : Bool) (a c : Char) : Bool :=
  if ci then toLowN a.toNat == toLowN c.toNat else a.toNat == c.toNat

/-- Class membership; under IGNORECASE a character matches if either of its
case forms is in the class. -/
def clsMatch (ci neg : Bool) (p : Nat → Bool) (c : Char) : Bool :=
  let m := p c.toNat || (ci && (p (toLowN c.toNat) || p (toUpN c.toNat)))
  if neg then !m else m

/-- Backtracking matcher in continuation style, mirroring Python `re`'s
preference order: a left alternative is tried before the right one, a greedy
star consumes as much as possible first, a lazy star as little as possible.
`fuel` only bounds the recursion (the callers pass generously more than any
match can use, so it never cuts off an actual match). -/
def mrun (ci : Bool) :
    Nat → RE → MSt → Caps → (MSt → Caps → Option (MSt × Caps)) →
    Option (MSt × Caps)
  | 0, _, _, _, _ => none
  | fuel + 1, re, st, caps, k =>
    match re with
    | .eps => k st caps
    | .dot =>
      match st.rest with
      | c :: r => if c.toNat == 10 then none else k ⟨st.pos + 1, r, some c⟩ caps
      | [] => none
    | .lit a =>
      match st.rest with
      | c :: r => if charEq ci a c then k ⟨st.pos + 1, r, some c⟩ caps else none
      | [] => none
    | .cls neg p =>
      match st.rest with
      | c :: r => if clsMatch ci neg p c then k ⟨st.pos + 1, r, some c⟩ caps else none
      | [] => none
    | .cat a b => mrun ci fuel a st caps (fun st2 c2 => mrun ci fuel b st2 c2 k)
    | .alt a b =>
      match mrun ci fuel a st caps k with
      | some r => some r
      | none => mrun ci fuel b st caps k
    | .star g a =>
      let more := fun st2 c2 =>
        if st.pos < st2.pos then mrun ci fuel (.star g a) st2 c2 k else none
      if g then
        match mrun ci fuel a st caps more with
        | some r => some r
        | none => k st caps
      else
        match k st caps with
        | some r => some r
        | none => mrun ci fuel a st caps more
    | .grp i a => mrun ci fuel a st caps (fun st2 c2 => k st2 ((i, st.pos, st2.pos) :: c2))
    | .look neg a =>
      match mrun ci fuel a st caps (fun st2 c2 => some (st2, c2)) with
      | some _ => if neg then none else k st caps
      | none => if neg then k st caps else none
    | .wordB =>
      let pw := match st.prev with | some c => wordN c.toNat | none => false
      let nw := match st.rest with | c :: _ => wordN c.toNat | [] => false
      if pw != nw then k st caps else none
    | .bol => if st.pos == 0 then k st caps else none
    | .eol =>
      match st.rest with
      | [] => k st caps
      | [c] => if c.toNat == 10 then k st caps else none
      | _ => none

/-- Attempt a match anchored at state `st` (fuel is far above the depth any
of the source's patterns can reach on its inputs). -/
def mtop (ci : Bool) (re : RE) (s : List Char) (st : MSt) : Option (MSt × Caps) :=
  mrun ci (4 * s.length + 800) re st [] (fun st2 c2 => some (st2, c2))

/-- `re.search`: try each start position from left to right; the first
position admitting a match wins (structural recursion on the remaining
input). -/
def searchFromGo (ci : Bool) (re : RE) (s : List Char) :
    List Char → Nat → Option Char → Option (Nat × Nat × Caps)
  | rest, pos, prev =>
    match mtop ci re s ⟨pos, rest, prev⟩ with
    | some (st2, c) => some (pos, st2.pos, c)
    | none =>
      match rest with
      | [] => none
      | c :: r => searchFromGo ci re s r (pos + 1) (some c)

def searchFrom (ci : Bool) (re : RE) (s : List Char) (st : MSt) :
    Option (Nat × Nat × Caps) :=
  searchFromGo ci re s st.rest st.pos st.prev

/-- State at absolute position `p` of `s`. -/
def mkSt (s : List Char) (p : Nat) : MSt :=
  ⟨p, s.drop p, if p = 0 then none else (s.drop (p - 1)).head?⟩

def reSearch (ci : Bool) (re : RE) (s : String) : Option (Nat × Nat × Caps) :=
  searchFrom ci re s.toList (mkSt s.toList 0)

/-- Boolean `re.search` (used by `any(p.search(line) ...)`). -/
def reTest (ci : Bool) (re : RE) (s : String) : Bool :=
  (reSearch ci re s).isSome

def capGet (caps : Caps) (i : Nat) : Option (Nat × Nat) :=
  match caps with
  | [] => none
  | (j, a, b) :: rest => if j = i then some (a, b) else capGet rest i

def slice (s : List Char) (a b : Nat) : String :=
  String.mk ((s.drop a).take (b - a))

/-- `match.group(i)` of the first match, if any. -/
def searchGroup (ci : Bool) (re : RE) (s : String) (i : Nat) : Option String :=
  match reSearch ci re s with
  | some (_, _, caps) =>
    match capGet caps i with
    | some (a, b) => some (slice s.toList a b)
    | none => none
  | none => none

/-- `re.findall` for a pattern with one group: the group-1 text of each
non-overlapping match, scanning left to right. -/
def findallG1Go (ci : Bool) (re : RE) (s : List Char) : Nat → Nat → List String
  | 0, _ => []
  | fuel + 1, p =>
    if s.length < p then [] else
    match searchFrom ci re s (mkSt s p) with
    | none => []
    | some (b, e, caps) =>
      let g := match capGet caps 1 with
        | some (a, b2) => slice s a b2
        | none => ""
      g :: findallG1Go ci re s fuel (if b < e then e else e + 1)

def findallG1 (ci : Bool) (re : RE) (s : String) : List String :=
  findallG1Go ci re s.toList (s.toList.length + 2) 0

/-- `re.sub`: replace every non-overlapping match, scanning left to right;
`rep` builds the replacement from the input, the captures and the match
bounds. -/
def reSubGo (ci : Bool) (re : RE) (s : List Char)
    (rep : List Char → Caps → Nat → Nat → List Char) : Nat → Nat → List Char
  | 0, p => s.drop p
  | fuel + 1, p =>
    match searchFrom ci re s (mkSt s p) with
    | none => s.drop p
    | some (b, e, caps) =>
      ((s.drop p).take (b - p)) ++ rep s caps b e ++
        (if b < e then reSubGo ci re s rep fuel e
         else
           match s.drop e with
           | [] => []
           | c :: _ => c :: reSubGo ci re s rep fuel (e + 1))

def reSub (ci : Bool) (re : RE) (rep : List Char → Caps → Nat → Nat → List Char)
    (s : String) : String :=
  String.mk (reSubGo ci re s.toList rep (s.toList.length + 2) 0)

def repEmpty : List Char → Caps → Nat → Nat → List Char := fun _ _ _ _ => []

def repSpace : List Char → Caps → Nat → Nat → List Char := fun _ _ _ _ => [' ']

/-- Template `\1 \2`. -/
def repG1spG2 : List Char → Caps → Nat → Nat → List Char := fun s caps _ _ =>
  let g1 := match capGet caps 1 with | some (a, b) => (s.drop a).take (b - a) | none => []
  let g2 := match capGet caps 2 with | some (a, b) => (s.drop a).take (b - a) | none => []
  g1 ++ [' '] ++ g2

/-! ## Python string helpers -/

def dropAround (p : Char → Bool) (l : List Char) : List Char :=
  ((l.dropWhile p).reverse.dropWhile p).reverse

/-- `str.strip()` (whitespace). -/
def pyStrip (s : String) : String := String.mk (dropAround isSpaceA s.toList)

/-- `str.strip(chars)`. -/
def pyStripChars (cs : String) (s : String) : String :=
  String.mk (dropAround (fun c => cs.toList.any (fun x => x.toNat == c.toNat)) s.toList)

/-- `str.lower()`. -/
def pyLower (s : String) : String := String.mk (s.toList.map toLowerA)

def splitNlGo : List Char → List Char → List String
  | [], acc => [String.mk acc.reverse]
  | c :: r, acc =>
    if c.toNat == 10 then String.mk acc.reverse :: splitNlGo r []
    else splitNlGo r (c :: acc)

/-- `str.split('\n')`. -/
def pySplitNl (s : String) : List String := splitNlGo s.toList []

def splitWsGo : List Char → List Char → List String
  | [], acc => if acc.isEmpty then [] else [String.mk acc.reverse]
  | c :: r, acc =>
    if isSpaceA c then
      if acc.isEmpty then splitWsGo r [] else String.mk acc.reverse :: splitWsGo r []
    else splitWsGo r (c :: acc)

/-- `str.split()` (whitespace runs, no empty parts). -/
def pySplitWs (s : String) : List String := splitWsGo s.toList []

/-- String-prefix test by character codes. -/
def prefixN : List Char → List Char → Bool
  | [], _ => true
  | _ :: _, [] => false
  | a :: as, b :: bs => a.toNat == b.toNat && prefixN as bs

def substrGo (n : List Char) : List Char → Bool
  | [] => n.isEmpty
  | c :: r => if prefixN n (c :: r) then true else substrGo n r

/-- Python `needle in hay` substring test. -/
def substrB (needle hay : String) : Bool := substrGo needle.toList hay.toList

def pyFindGo (n : List Char) : List Char → Nat → Option Nat
  | [], i => if prefixN n [] then some i else none
  | c :: r, i => if prefixN n (c :: r) then some i else pyFindGo n r (i + 1)

/-- `str.find`: first index of the substring, or `-1`. -/
def pyFind (hay needle : String) : Int :=
  match pyFindGo needle.toList hay.toList 0 with
  | some i => Int.ofNat i
  | none => -1

/-- `text[i]` with an irrelevant default (all uses are in bounds). -/
def charAtD (s : String) (i : Nat) : Char := s.toList.getD i ' '

/-! ## Pattern combinators (shorthand for transcription) -/

def rcat : List RE → RE
  | [] => .eps
  | [a] => a
  | a :: rest => .cat a (rcat rest)

def rstr (s : String) : RE := rcat (s.toList.map RE.lit)

def ralts : List RE → RE
  | [] => .eps
  | [a] => a
  | a :: rest => .alt a (ralts rest)

/-- Greedy `?`. -/
def ropt (a : RE) : RE := .alt a .eps

/-- `\.?`. -/
def dotOpt : RE := ropt (.lit '.')

def clsOf (l : List Char) : RE := .cls false (fun n => l.any (fun c => c.toNat == n))

def wsC : RE := .cls false spaceN

/-- `\s*`. -/
def wsStar : RE := .star true wsC

/-- `\s+`. -/
def wsPlus : RE := .cat wsC wsStar

def wb : RE := .wordB

def digC : RE := .cls false digitN

/-- `\d{n}`. -/
def dig (n : Nat) : RE := rcat (List.replicate n digC)

/-- Greedy `+`. -/
def plusG (a : RE) : RE := .cat a (.star true a)

/-- Lazy `+?`. -/
def plusL (a : RE) : RE := .cat a (.star false a)

def starG (a : RE) : RE := .star true a

/-- `.*`. -/
def dotStar : RE := .star true RE.dot

/-- Greedy `{0,n}`. -/
def upTo : Nat → RE → RE
  | 0, _ => .eps
  | n + 1, a => ropt (.cat a (upTo n a))

def upperC : RE := .cls false upN

def lowerC : RE := .cls false lowN

def wordC : RE := .cls false wordN

/-- `[-–—]` (hyphen, en dash U+2013, em dash U+2014, as in the source). -/
def dashC : RE := clsOf ['-', '–', '—']

def lookA (a : RE) : RE := .look false a

def lookN (a : RE) : RE := .look true a

def phraseGo : List String → List RE
  | [] => []
  | [w] => [rstr w]
  | w :: rest => rstr w :: wsPlus :: phraseGo rest

/-- Words joined by `\s+`. -/
def phrase (l : List String) : RE := rcat (phraseGo l)

/-- `\bw\b`. -/
def bword (w : String) : RE := rcat [wb, rstr w, wb]

/-- `\bw1\s+w2...\b`. -/
def bphrase (l : List String) : RE := rcat [wb, phrase l, wb]

/-! ## HARD EXCLUSIONS — transcription of `EXCLUSION_PATTERNS`
(all compiled with `re.IGNORECASE` in the source). Each entry is annotated
with the original regex. -/

/-- `[\s,]` (used by `clean_institution`). -/
def spaceComma : RE := .cls false (fun n => spaceN n || n == ','.toNat)

def EXCLUSION_PATTERNS : List RE := [
  -- r'\b(?:Professor|Assistant\s+Professor|Associate\s+Professor|Adjunct\s+Professor)\b'
  rcat [wb, ralts [rstr "Professor", phrase ["Assistant", "Professor"],
    phrase ["Associate", "Professor"], phrase ["Adjunct", "Professor"]], wb],
  -- r'\b(?:Lecturer|Instructor|Visiting\s+Professor|Research\s+Professor)\b'
  rcat [wb, ralts [rstr "Lecturer", rstr "Instructor", phrase ["Visiting", "Professor"],
    phrase ["Research", "Professor"]], wb],
  -- r'\b(?:Director|Chair|Dean|Manager|Coordinator|Consultant)\b'
  rcat [wb, ralts [rstr "Director", rstr "Chair", rstr "Dean", rstr "Manager",
    rstr "Coordinator", rstr "Consultant"], wb],
  -- r'\b(?:President|Vice\s+President|Provost|Chancellor)\b'
  rcat [wb, ralts [rstr "President", phrase ["Vice", "President"], rstr "Provost",
    rstr "Chancellor"], wb],
  -- r'\bPresent\b.*\d{4}'
  rcat [wb, rstr "Present", wb, dotStar, dig 4],
  -- r'\d{4}\s*[-–—]\s*Present\b'
  rcat [dig 4, wsStar, dashC, wsStar, rstr "Present", wb],
  -- r'\b(?:taught|teaching|supervised|advising|mentoring)\b'
  rcat [wb, ralts [rstr "taught", rstr "teaching", rstr "supervised", rstr "advising",
    rstr "mentoring"], wb],
  -- r'\b(?:employed|appointed|hired|joined)\b'
  rcat [wb, ralts [rstr "employed", rstr "appointed", rstr "hired", rstr "joined"], wb],
  -- r'\bJournal\s+of\b'
  bphrase ["Journal", "of"],
  -- r'\bpp\.\s*\d+'
  rcat [wb, rstr "pp", .lit '.', wsStar, plusG digC],
  -- r'\bVol\.\s*\d+'
  rcat [wb, rstr "Vol", .lit '.', wsStar, plusG digC],
  -- r'\bNo\.\s*\d+'
  rcat [wb, rstr "No", .lit '.', wsStar, plusG digC],
  -- r'\(\d{4}\)[,\.]?\s*$'
  rcat [.lit '(', dig 4, .lit ')', ropt (clsOf [',', '.']), wsStar, .eol],
  -- r'\bReview\s+of\b'
  bphrase ["Review", "of"],
  -- r'\bQuarterly\b'
  bword "Quarterly",
  -- r'\bAnnual\b'
  bword "Annual",
  -- r'\beditors?\b'
  rcat [wb, rstr "editor", ropt (.lit 's'), wb],
  -- r'\bforthcoming\b'
  bword "forthcoming",
  -- r'\bpublished\b'
  bword "published",
  -- r'\bworking\s+paper\b'
  bphrase ["working", "paper"],
  -- r'\bmanuscript\b'
  bword "manuscript",
  -- r'[""][A-Z]'  (the class repeats the ASCII double quote in the source)
  rcat [clsOf ['"', '"'], upperC],
  -- r'\band\b.*\band\b.*\band\b'
  rcat [wb, rstr "and", wb, dotStar, wb, rstr "and", wb, dotStar, wb, rstr "and", wb],
  -- r',\s*\d{4}\.\s*$'
  rcat [.lit ',', wsStar, dig 4, .lit '.', wsStar, .eol],
  -- r'\(\s*with\s+'
  rcat [.lit '(', wsStar, rstr "with", wsPlus],
  -- r'\d+\.\s*\*?[A-Z][a-z]+,'
  rcat [plusG digC, .lit '.', wsStar, ropt (.lit '*'), upperC, plusG lowerC, .lit ','],
  -- r'\bCourses\s*:\s*$'
  rcat [wb, rstr "Courses", wsStar, .lit ':', wsStar, .eol],
  -- r'\bCourses?\b.*:'
  rcat [wb, rstr "Course", ropt (.lit 's'), wb, dotStar, .lit ':'],
  -- r'^\s*\w+\s+Courses\s*$'
  rcat [.bol, wsStar, plusG wordC, wsPlus, rstr "Courses", wsStar, .eol],
  -- r'\bCourse\s+Modules?\b'
  rcat [wb, rstr "Course", wsPlus, rstr "Module", ropt (.lit 's'), wb],
  -- r'\b(?:MBA|MPA|MPP|Ph\.?D\.?)\s*[-–—]?\s*(?:I|II|III|IV|1|2|3|4)\b'
  rcat [wb, ralts [rstr "MBA", rstr "MPA", rstr "MPP",
      rcat [rstr "Ph", dotOpt, rstr "D", dotOpt]],
    wsStar, ropt dashC, wsStar,
    ralts [rstr "I", rstr "II", rstr "III", rstr "IV", rstr "1", rstr "2",
      rstr "3", rstr "4"], wb],
  -- r'\bExecutive\s+MBA\b'
  bphrase ["Executive", "MBA"],
  -- r'\bGlobal\s+(?:Executive\s+)?MBA\b'
  rcat [wb, rstr "Global", wsPlus, ropt (rcat [rstr "Executive", wsPlus]), rstr "MBA", wb],
  -- r'\bGEMBA\b'
  bword "GEMBA",
  -- r'\bPh\.?\s*D\.?\s+program\b'
  rcat [wb, rstr "Ph", dotOpt, wsStar, rstr "D", dotOpt, wsPlus, rstr "program", wb],
  -- r'\bMBA\s+program\b'
  bphrase ["MBA", "program"],
  -- r'\bprogram\s*\([A-Z]+\s+\d+'
  rcat [wb, rstr "program", wsStar, .lit '(', plusG upperC, wsPlus, plusG digC],
  -- r'\bused\s+in\b.*\bprograms?\b'
  rcat [wb, phrase ["used", "in"], wb, dotStar, wb, rstr "program", ropt (.lit 's'), wb],
  -- r'\badvisor\b'
  bword "advisor",
  -- r'\badvise[ed]?\b'
  rcat [wb, rstr "advise", ropt (clsOf ['e', 'd']), wb],
  -- r'\badvise[er]\b'
  rcat [wb, rstr "advise", clsOf ['e', 'r'], wb],
  -- r'\bmentor\b'
  bword "mentor",
  -- r'\bsupervis\w*\b'
  rcat [wb, rstr "supervis", starG wordC, wb],
  -- r'\bstudent\b'
  bword "student",
  -- r'\byear\s+paper\b'
  bphrase ["year", "paper"],
  -- r'\bPh\.?\s*D\.?\s+(?:Student|Fellow|Candidate)\b'
  rcat [wb, rstr "Ph", dotOpt, wsStar, rstr "D", dotOpt, wsPlus,
    ralts [rstr "Student", rstr "Fellow", rstr "Candidate"], wb],
  -- r'\bdissertation\s+committee\b'
  bphrase ["dissertation", "committee"],
  -- r'\bWorkshop\b'
  bword "Workshop",
  -- r'\bSeminar\b'
  bword "Seminar",
  -- r'\bTraining\b'
  bword "Training",
  -- r'\bConference\b'
  bword "Conference",
  -- r'\bCertificat(?:e|ion)\b'
  rcat [wb, rstr "Certificat", ralts [rstr "e", rstr "ion"], wb],
  -- r'\bCFA\b(?!\s+Institute)'
  rcat [wb, rstr "CFA", wb, lookN (rcat [wsPlus, rstr "Institute"])],
  -- r'\bCFP\b'
  bword "CFP",
  -- r'\bCPA\b'
  bword "CPA",
  -- r'\bCMA\b'
  bword "CMA",
  -- r'\bFRM\b'
  bword "FRM",
  -- r'\bCommittee\b'
  bword "Committee",
  -- r'\bBoard\b'
  bword "Board",
  -- r'\bSenate\b'
  bword "Senate",
  -- r'\bDissertation\s*:'
  rcat [wb, rstr "Dissertation", wsStar, .lit ':'],
  -- r'\bThesis\s*:'
  rcat [wb, rstr "Thesis", wsStar, .lit ':'],
  -- r'\bAward\b'
  bword "Award",
  -- r'\bPrize\b'
  bword "Prize",
  -- r'\bFellow\s+of\b'
  bphrase ["Fellow", "of"],
  -- r'\bRecipient\b'
  bword "Recipient",
  -- r'\bScholarship\b'
  bword "Scholarship"]

/-- `any(p.search(line) for p in COMPILED_EXCLUSION_PATTERNS)`. -/
def lineExcluded (line : String) : Bool :=
  EXCLUSION_PATTERNS.any (fun p => reTest true p line)

/-! ## DEGREE TOKENS — transcription of `DEGREE_PATTERNS`
(pattern, canonical display, level), in source order; all compiled with
`re.IGNORECASE`. -/

/-- `(?=[\s,\.\)]|$)` — the following-boundary lookahead of the source. -/
def endLook : RE :=
  lookA (.alt (.cls false
    (fun n => spaceN n || n == ','.toNat || n == '.'.toNat || n == ')'.toNat)) .eol)

def DEGREE_PATTERNS : List (RE × String × String) := [
  -- r'\bPh\.?\s*D\.?\b'
  (rcat [wb, rstr "Ph", dotOpt, wsStar, rstr "D", dotOpt, wb], "Ph.D.", "phd"),
  -- r'\bPHD\b'
  (bword "PHD", "Ph.D.", "phd"),
  -- r'\bD\.?\s*Phil\.?\b'
  (rcat [wb, rstr "D", dotOpt, wsStar, rstr "Phil", dotOpt, wb], "D.Phil", "phd"),
  -- r'\bDoctor\s+of\s+Philosophy\b'
  (bphrase ["Doctor", "of", "Philosophy"], "Ph.D.", "phd"),
  -- r'\bD\.?\s*B\.?\s*A\.?\b'
  (rcat [wb, rstr "D", dotOpt, wsStar, rstr "B", dotOpt, wsStar, rstr "A", dotOpt, wb],
    "D.B.A.", "phd"),
  -- r'\bDoctor\s+of\s+Business\s+Administration\b'
  (bphrase ["Doctor", "of", "Business", "Administration"], "D.B.A.", "phd"),
  -- r'\bEd\.?\s*D\.?\b'
  (rcat [wb, rstr "Ed", dotOpt, wsStar, rstr "D", dotOpt, wb], "Ed.D.", "phd"),
  -- r'\bDoctor\s+of\s+Education\b'
  (bphrase ["Doctor", "of", "Education"], "Ed.D.", "phd"),
  -- r'\bM\.?\s*B\.?\s*A\.?\b'
  (rcat [wb, rstr "M", dotOpt, wsStar, rstr "B", dotOpt, wsStar, rstr "A", dotOpt, wb],
    "MBA", "masters"),
  -- r'\bMaster\s+of\s+Business\s+Administration\b'
  (bphrase ["Master", "of", "Business", "Administration"], "MBA", "masters"),
  -- r'\bM\.?\s*S\.?\b(?=[\s,\.\)]|$)'
  (rcat [wb, rstr "M", dotOpt, wsStar, rstr "S", dotOpt, wb, endLook], "M.S.", "masters"),
  -- r'\bS\.?\s*M\.?\b(?=[\s,\.\)]|$)'
  (rcat [wb, rstr "S", dotOpt, wsStar, rstr "M", dotOpt, wb, endLook], "S.M.", "masters"),
  -- r'\bMaster\s+of\s+Science\b'
  (bphrase ["Master", "of", "Science"], "M.S.", "masters"),
  -- r'\bM\.?\s*Sc\.?\b'
  (rcat [wb, rstr "M", dotOpt, wsStar, rstr "Sc", dotOpt, wb], "M.Sc.", "masters"),
  -- r'\bM\.A\.?\b(?=[\s,\.\)]|$)'
  (rcat [wb, rstr "M", .lit '.', rstr "A", dotOpt, wb, endLook], "M.A.", "masters"),
  -- r'\bMA\b(?=\s+in\s)'
  (rcat [wb, rstr "MA", wb, lookA (rcat [wsPlus, rstr "in", wsC])], "M.A.", "masters"),
  -- r'\bMaster\s+of\s+Arts\b'
  (bphrase ["Master", "of", "Arts"], "M.A.", "masters"),
  -- r'\bM\.?\s*Eng\.?\b'
  (rcat [wb, rstr "M", dotOpt, wsStar, rstr "Eng", dotOpt, wb], "M.Eng.", "masters"),
  -- r'\bM\.?\s*Phil\.?\b'
  (rcat [wb, rstr "M", dotOpt, wsStar, rstr "Phil", dotOpt, wb], "M.Phil.", "masters"),
  -- r'\bLL\.?\s*M\.?\b'
  (rcat [wb, rstr "LL", dotOpt, wsStar, rstr "M", dotOpt, wb], "LL.M.", "masters"),
  -- r'\bJ\.?\s*D\.?\b'  (JD is professional masters-level, per the source)
  (rcat [wb, rstr "J", dotOpt, wsStar, rstr "D", dotOpt, wb], "J.D.", "masters"),
  -- r'\bJuris\s+Doctor\b'
  (bphrase ["Juris", "Doctor"], "J.D.", "masters"),
  -- r'\bMPA\b'
  (bword "MPA", "MPA", "masters"),
  -- r'\bM\.?\s*P\.?\s*A\.?\b'
  (rcat [wb, rstr "M", dotOpt, wsStar, rstr "P", dotOpt, wsStar, rstr "A", dotOpt, wb],
    "MPA", "masters"),
  -- r'\bMPP\b'
  (bword "MPP", "MPP", "masters"),
  -- r'\bM\.?\s*P\.?\s*P\.?\b'
  (rcat [wb, rstr "M", dotOpt, wsStar, rstr "P", dotOpt, wsStar, rstr "P", dotOpt, wb],
    "MPP", "masters"),
  -- r'\bMPH\b'
  (bword "MPH", "MPH", "masters"),
  -- r'\bM\.?\s*P\.?\s*H\.?\b'
  (rcat [wb, rstr "M", dotOpt, wsStar, rstr "P", dotOpt, wsStar, rstr "H", dotOpt, wb],
    "MPH", "masters"),
  -- r'\bMEd\b'
  (bword "MEd", "MEd", "masters"),
  -- r'\bM\.?\s*Ed\.?\b'
  (rcat [wb, rstr "M", dotOpt, wsStar, rstr "Ed", dotOpt, wb], "MEd", "masters"),
  -- r'\bB\.?\s*S\.?\b(?=[\s,\.\)]|$)'
  (rcat [wb, rstr "B", dotOpt, wsStar, rstr "S", dotOpt, wb, endLook], "B.S.", "undergrad"),
  -- r'\bS\.?\s*B\.?\b(?=[\s,\.\)]|$)'
  (rcat [wb, rstr "S", dotOpt, wsStar, rstr "B", dotOpt, wb, endLook], "S.B.", "undergrad"),
  -- r'\bBachelor\s+of\s+Science\b'
  (bphrase ["Bachelor", "of", "Science"], "B.S.", "undergrad"),
  -- r'\bB\.?\s*Sc\.?\b'
  (rcat [wb, rstr "B", dotOpt, wsStar, rstr "Sc", dotOpt, wb], "B.Sc.", "undergrad"),
  -- r'\bB\.A\.?\b(?=[\s,\.\)]|$)'
  (rcat [wb, rstr "B", .lit '.', rstr "A", dotOpt, wb, endLook], "B.A.", "undergrad"),
  -- r'\bBA\b(?=\s+in\s)'
  (rcat [wb, rstr "BA", wb, lookA (rcat [wsPlus, rstr "in", wsC])], "B.A.", "undergrad"),
  -- r'\bA\.?\s*B\.?\b(?=[\s,\.\)]|$)'
  (rcat [wb, rstr "A", dotOpt, wsStar, rstr "B", dotOpt, wb, endLook], "A.B.", "undergrad"),
  -- r'\bBachelor\s+of\s+Arts\b'
  (bphrase ["Bachelor", "of", "Arts"], "B.A.", "undergrad"),
  -- r'\bB\.?\s*E\.?\b(?=\s+in\s|\s*,|\s+[A-Z])'
  (rcat [wb, rstr "B", dotOpt, wsStar, rstr "E", dotOpt, wb,
    lookA (ralts [rcat [wsPlus, rstr "in", wsC], rcat [wsStar, .lit ','],
      rcat [wsPlus, upperC]])], "B.E.", "undergrad"),
  -- r'\bB\.?\s*Eng\.?\b'
  (rcat [wb, rstr "B", dotOpt, wsStar, rstr "Eng", dotOpt, wb], "B.Eng.", "undergrad"),
  -- r'\bBBA\b'
  (bword "BBA", "BBA", "undergrad"),
  -- r'\bB\.?\s*B\.?\s*A\.?\b'
  (rcat [wb, rstr "B", dotOpt, wsStar, rstr "B", dotOpt, wsStar, rstr "A", dotOpt, wb],
    "BBA", "undergrad"),
  -- r'\bB\.?\s*Com\.?\b'
  (rcat [wb, rstr "B", dotOpt, wsStar, rstr "Com", dotOpt, wb], "B.Com.", "undergrad")]

/-! ## SCHOOL VALIDATION -/

def INSTITUTION_KEYWORDS : List String :=
  ["university", "college", "institute", "school"]

/-- The source stores these in a Python `set` (iteration order unspecified);
we fix the literal order. Every use below is order-independent except the
allow-list scan in `extract_institution_strict`, whose result coincides for
any order whenever at most one entry occurs in the text. -/
def KNOWN_INSTITUTIONS : List String :=
  ["MIT", "Caltech", "INSEAD", "Wharton", "Kellogg", "Booth", "HEC", "LSE",
   "UCLA", "NYU", "USC", "CUNY", "SUNY"]

def EMPLOYMENT_TOKENS : List String :=
  ["professor", "assistant", "associate", "adjunct", "visiting",
   "lecturer", "instructor", "director", "chair", "dean",
   "president", "provost", "chancellor", "coordinator",
   "employed", "appointed", "joined", "present"]

def SECTION_HEADERS : List String :=
  ["education", "experience", "employment", "publications", "research",
   "teaching", "awards", "honors", "service", "references", "grants",
   "activities", "affiliations", "memberships", "certifications"]

def COURSE_TOKENS : List String :=
  ["workshop", "seminar", "training", "conference", "course", "module",
   "certificate", "certification", "program", "class"]

/-- `is_valid_institution`: keyword or allow-list required; employment /
section-header / course tokens are hard rejects (substring tests on the
lower-cased text, as in the source; the allow-list test is on the raw
text). -/
def is_valid_institution (text : String) : Bool :=
  if text = "" || text.length < 2 then false
  else
    let text_lower := pyLower text
    if EMPLOYMENT_TOKENS.any (fun t => substrB t text_lower) then false
    else if SECTION_HEADERS.any (fun t => substrB t text_lower) then false
    else if COURSE_TOKENS.any (fun t => substrB t text_lower) then false
    else if INSTITUTION_KEYWORDS.any (fun t => substrB t text_lower) then true
    else if KNOWN_INSTITUTIONS.any (fun t => substrB t text) then true
    else false

/-! ## `clean_institution` -/

/-- `' \t\n\r.,;:()[]{}"\'-'` — the strip set of `clean_institution`. -/
def STRIP_PUNCT : String := " \t\n\r.,;:()[]\x7b\x7d\"\x27-"

/-- r'[\s,]+\d{4}\s*$' -/
def cleanYearEnd : RE := rcat [plusG spaceComma, dig 4, wsStar, .eol]

/-- r'[\s,]+\d{4}\s*[-–—]\s*\d{2,4}\s*$' -/
def cleanYearRangeEnd : RE :=
  rcat [plusG spaceComma, dig 4, wsStar, dashC, wsStar, dig 2, upTo 2 digC, wsStar, .eol]

/-- The month alternation of `clean_institution` (IGNORECASE), in source
order. -/
def monthAlt : RE := ralts (["January", "February", "March", "April", "May", "June",
  "July", "August", "September", "October", "November", "December", "Jan", "Feb",
  "Mar", "Apr", "May", "Jun", "Jul", "Aug", "Sep", "Sept", "Oct", "Nov", "Dec"].map rstr)

/-- r'[\s,]+(?:January|...|Dec)[\s,]*\d*\s*$' -/
def cleanMonthEnd : RE :=
  rcat [plusG spaceComma, monthAlt, starG spaceComma, starG digC, wsStar, .eol]

/-- `(?:Ph\.?D\.?|MBA|M\.?S\.?|M\.?A\.?|B\.?S\.?|B\.?A\.?|J\.?D\.?)` -/
def degAbbrevAlt : RE := ralts [
  rcat [rstr "Ph", dotOpt, rstr "D", dotOpt],
  rstr "MBA",
  rcat [rstr "M", dotOpt, rstr "S", dotOpt],
  rcat [rstr "M", dotOpt, rstr "A", dotOpt],
  rcat [rstr "B", dotOpt, rstr "S", dotOpt],
  rcat [rstr "B", dotOpt, rstr "A", dotOpt],
  rcat [rstr "J", dotOpt, rstr "D", dotOpt]]

/-- r'[\s,]+(?:Ph\.?D\.?|MBA|M\.?S\.?|M\.?A\.?|B\.?S\.?|B\.?A\.?|J\.?D\.?)\s*$' -/
def cleanDegreeEnd : RE := rcat [plusG spaceComma, degAbbrevAlt, wsStar, .eol]

/-- r'\s*\([^)]*\)\s*$' -/
def cleanParenEnd : RE :=
  rcat [wsStar, .lit '(', starG (.cls true (fun n => n == ')'.toNat)), .lit ')', wsStar, .eol]

/-- r'[\s,]+(?:summa|magna|cum\s+laude|with\s+honors?|with\s+distinction)\s*$' -/
def cleanHonorsEnd : RE :=
  rcat [plusG spaceComma,
    ralts [rstr "summa", rstr "magna", phrase ["cum", "laude"],
      rcat [rstr "with", wsPlus, rstr "honor", ropt (.lit 's')],
      phrase ["with", "distinction"]],
    wsStar, .eol]

/-- `clean_institution`: strip punctuation, then strip trailing years, year
ranges, months, degree abbreviations, parentheticals and honors, then
collapse whitespace (the `re.sub` flags follow the source: the month,
degree-abbreviation and honors substitutions are IGNORECASE, the rest are
case-sensitive). -/
def clean_institution (inst : String) : String :=
  if inst = "" then ""
  else
    let inst := pyStripChars STRIP_PUNCT inst
    let inst := reSub false cleanYearEnd repEmpty inst
    let inst := reSub false cleanYearRangeEnd repEmpty inst
    let inst := reSub true cleanMonthEnd repEmpty inst
    let inst := reSub true cleanDegreeEnd repEmpty inst
    let inst := reSub false cleanParenEnd repEmpty inst
    let inst := reSub true cleanHonorsEnd repEmpty inst
    let inst := reSub false wsPlus repSpace inst
    pyStripChars STRIP_PUNCT inst

/-! ## `extract_institution_strict` (all its searches are case-sensitive) -/

/-- `[A-Z][a-z]+`. -/
def capWord : RE := .cat upperC (plusG lowerC)

/-- r'(University\s+of\s+[A-Z][a-z]+(?:[-\s]+[A-Z][a-z]+)?(?:,\s*[A-Z][a-z]+)?)' -/
def instP1 : RE := .grp 1 (rcat [rstr "University", wsPlus, rstr "of", wsPlus, capWord,
  ropt (rcat [plusG (.cls false (fun n => n == '-'.toNat || spaceN n)), capWord]),
  ropt (rcat [.lit ',', wsStar, capWord])])

/-- r'([A-Z][a-z]+(?:\s+[A-Z][a-z]+){0,3}\s+University)' -/
def instP2 : RE :=
  .grp 1 (rcat [capWord, upTo 3 (rcat [wsPlus, capWord]), wsPlus, rstr "University"])

/-- r'([A-Z][a-z]+\s+State\s+University)' -/
def instP3 : RE :=
  .grp 1 (rcat [capWord, wsPlus, rstr "State", wsPlus, rstr "University"])

/-- r'([A-Z][a-z]+(?:\s+[A-Z][a-z]+)?\s+Institute\s+of\s+Technology)' -/
def instP4 : RE := .grp 1 (rcat [capWord, ropt (rcat [wsPlus, capWord]), wsPlus,
  rstr "Institute", wsPlus, rstr "of", wsPlus, rstr "Technology"])

/-- r'([A-Z][a-z]+(?:\s+[A-Z][a-z]+){0,2}\s+College)' -/
def instP5 : RE :=
  .grp 1 (rcat [capWord, upTo 2 (rcat [wsPlus, capWord]), wsPlus, rstr "College"])

/-- r'([A-Z][a-z]+(?:\s+[A-Z][a-z]+)?\s+School(?:\s+of\s+[A-Z][a-z]+)?)' -/
def instP6 : RE := .grp 1 (rcat [capWord, ropt (rcat [wsPlus, capWord]), wsPlus,
  rstr "School", ropt (rcat [wsPlus, rstr "of", wsPlus, capWord])])

/-- One structural pattern attempt: match, strip, clean, validate
(falls through — returns `none` — when the match is missing or invalid). -/
def tryInstPattern (p : RE) (text : String) : Option String :=
  match searchGroup false p text 1 with
  | some g =>
    let inst := clean_institution (pyStrip g)
    if inst ≠ "" && is_valid_institution inst then some inst else none
  | none => none

/-- `extract_institution_strict`: known allow-list names first
(rf'\b{known}\b', case-sensitive), then the six structural patterns in
order. -/
def extract_institution_strict (text : String) : String :=
  if text = "" then ""
  else
    match KNOWN_INSTITUTIONS.find? (fun w => reTest false (bword w) text) with
    | some w => w
    | none =>
      match tryInstPattern instP1 text with
      | some i => i
      | none =>
        match tryInstPattern instP2 text with
        | some i => i
        | none =>
          match tryInstPattern instP3 text with
          | some i => i
          | none =>
            match tryInstPattern instP4 text with
            | some i => i
            | none =>
              match tryInstPattern instP5 text with
              | some i => i
              | none =>
                match tryInstPattern instP6 text with
                | some i => i
                | none => ""

/-! ## YEAR VALIDATION — `extract_year_strict` -/

/-- `(19[5-9]\d|20[0-3]\d)`. -/
def yearNumAlt : RE :=
  .alt (rcat [rstr "19", .cls false (fun n => '5'.toNat ≤ n && n ≤ '9'.toNat), digC])
       (rcat [rstr "20", .cls false (fun n => '0'.toNat ≤ n && n ≤ '3'.toNat), digC])

/-- r'(19[5-9]\d|20[0-3]\d)\s*[-–—]\s*(19[5-9]\d|20[0-3]\d)' -/
def yearRangeRE : RE :=
  rcat [.grp 1 yearNumAlt, wsStar, dashC, wsStar, .grp 2 yearNumAlt]

/-- r'\b(19[5-9]\d|20[0-3]\d)\b' -/
def yearStandaloneRE : RE := rcat [wb, .grp 1 yearNumAlt, wb]

/-- The two captured years of the first range match, if any. -/
def rangeMatch (text : String) : Option (String × String) :=
  match reSearch false yearRangeRE text with
  | some (_, _, caps) =>
    match capGet caps 1, capGet caps 2 with
    | some (a1, b1), some (a2, b2) =>
      some (slice text.toList a1 b1, slice text.toList a2 b2)
    | _, _ => none
  | none => none

/-- The filter loop of `extract_year_strict`: drop years adjacent to another
digit at the first occurrence (`text.find`) of the year string. -/
def validYears (text : String) : List String :=
  (findallG1 false yearStandaloneRE text).filter (fun year =>
    let idx := pyFind text year
    !(decide (0 < idx) && isDigitA (charAtD text (idx - 1).toNat)) &&
    !(decide (idx + 4 < Int.ofNat text.length) && isDigitA (charAtD text (idx + 4).toNat)))

/-- `extract_year_strict`: a range yields its end year; otherwise the last
valid standalone year; otherwise the empty string. -/
def extract_year_strict (text : String) : String :=
  match rangeMatch text with
  | some (_, y2) => y2
  | none =>
    match (validYears text).getLast? with
    | some y => y
    | none => ""

/-! ## FIELD EXTRACTION — `extract_field_strict` (all searches IGNORECASE) -/

/-- `[A-Za-z\s&/\-]`. -/
def fieldCharC : RE :=
  .cls false (fun n => alphaN n || spaceN n || n == '&'.toNat || n == '/'.toNat ||
    n == '-'.toNat)

def letterC : RE := .cls false alphaN

/-- `([A-Za-z][A-Za-z\s&/\-]+?)` — lazy field capture. -/
def fieldGrp : RE := .grp 1 (.cat letterC (plusL fieldCharC))

/-- The source builds `degree_flex` by mapping each letter of the display
label to `letter\.?\s*` (skipping the label's dots, escaping anything else)
and then `rstrip`-ping the final `\s*`.  All display labels in
`DEGREE_PATTERNS` consist of letters and dots only, so the construction is
letter-dotOpt separated by `\s*`, with no trailing `\s*`: -/
def flexGo : List Char → List RE
  | [] => []
  | [c] => [.lit c, dotOpt]
  | c :: rest => .lit c :: dotOpt :: wsStar :: flexGo rest

def degreeFlexRE (degree_type : String) : RE :=
  rcat (flexGo (degree_type.toList.filter (fun c => isAlphaA c)))

/-- Terminator of field pattern 1:
`(?:,|;|\s+\d{4}|\s+(?:University|College|Institute|School|from|at)|\s*$)`. -/
def fieldTerm1 : RE := ralts [.lit ',', .lit ';', rcat [wsPlus, dig 4],
  rcat [wsPlus, ralts [rstr "University", rstr "College", rstr "Institute",
    rstr "School", rstr "from", rstr "at"]],
  rcat [wsStar, .eol]]

/-- Terminator of field patterns 2 and 4:
`(?:,|\s+\d{4}|\s+(?:University|College|Institute|School)|\s*$)`. -/
def fieldTerm2 : RE := ralts [.lit ',', rcat [wsPlus, dig 4],
  rcat [wsPlus, ralts [rstr "University", rstr "College", rstr "Institute",
    rstr "School"]],
  rcat [wsStar, .eol]]

/-- Pattern 1: rf'{flex}\s+(?:in|of)\s+(grp)(term1)'. -/
def fieldPat1 (flex : RE) : RE :=
  rcat [flex, wsPlus, ralts [rstr "in", rstr "of"], wsPlus, fieldGrp, fieldTerm1]

/-- Pattern 2: rf'{flex}\s*,\s*Concentration\s+in\s+(grp)(term2)'. -/
def fieldPat2 (flex : RE) : RE :=
  rcat [flex, wsStar, .lit ',', wsStar, rstr "Concentration", wsPlus, rstr "in",
    wsPlus, fieldGrp, fieldTerm2]

/-- Pattern 3: rf'{flex}\s+(grp)\s*,\s*[A-Z]'. -/
def fieldPat3 (flex : RE) : RE :=
  rcat [flex, wsPlus, fieldGrp, wsStar, .lit ',', wsStar, upperC]

/-- Pattern 4: rf'{flex}\s*,\s*(grp)(term2)'. -/
def fieldPat4 (flex : RE) : RE :=
  rcat [flex, wsStar, .lit ',', wsStar, fieldGrp, fieldTerm2]

/-- The reject vocabulary of `is_valid_field` (substring tests, lower case).
-/
def FIELD_REJECT_TERMS : List String :=
  ["professor", "assistant", "associate", "director", "chair", "dean",
   "committee", "board", "faculty", "department",
   "workshop", "seminar", "training", "conference",
   "present", "current", "ongoing", "employment", "experience",
   "course", "module", "level", "fellow", "student",
   "advisor", "adviser", "mentor", "supervisor",
   "core", "modules"]

/-- `is_valid_field`. -/
def is_valid_field (f : String) : Bool :=
  if f = "" || f.length < 3 || 60 < f.length then false
  else
    let fl := pyLower f
    if INSTITUTION_KEYWORDS.any (fun t => substrB t fl) then false
    else if FIELD_REJECT_TERMS.any (fun t => substrB t fl) then false
    else if ["summa", "magna", "cum laude", "honors"].any (fun t => substrB t fl) then false
    else if 6 < (pySplitWs f).length then false
    else true

/-- r'^(?:in|of|the)\s+' (IGNORECASE) -/
def cleanFieldLead : RE := rcat [.bol, ralts [rstr "in", rstr "of", rstr "the"], wsPlus]

/-- r'\s+(?:from|at|in)\s*$' (IGNORECASE) -/
def cleanFieldTrail : RE :=
  rcat [wsPlus, ralts [rstr "from", rstr "at", rstr "in"], wsStar, .eol]

/-- `clean_field`. -/
def clean_field (f : String) : String :=
  let f := reSub true cleanFieldLead repEmpty f
  let f := reSub true cleanFieldTrail repEmpty f
  pyStrip (reSub false wsPlus repSpace f)

/-- One field-pattern attempt: `match.group(1).strip()` of the first match.
-/
def tryFieldPat (p : RE) (text : String) : Option String :=
  match searchGroup true p text 1 with
  | some g => some (pyStrip g)
  | none => none

/-- `extract_field_strict`: patterns 1–4 in order; a matched-but-invalid
field falls through to the next pattern; in pattern 4 a field containing
"concentration" returns the empty string immediately (that case is handled
by pattern 2). -/
def extract_field_strict (text degree_type : String) : String :=
  let flex := degreeFlexRE degree_type
  match (match tryFieldPat (fieldPat1 flex) text with
         | some f => if is_valid_field f then some (clean_field f) else none
         | none => none) with
  | some r => r
  | none =>
    match (match tryFieldPat (fieldPat2 flex) text with
           | some f => if is_valid_field f then some (clean_field f) else none
           | none => none) with
    | some r => r
    | none =>
      match (match tryFieldPat (fieldPat3 flex) text with
             | some f => if is_valid_field f then some (clean_field f) else none
             | none => none) with
      | some r => r
      | none =>
        match tryFieldPat (fieldPat4 flex) text with
        | some f =>
          if substrB "concentration" (pyLower f) then ""
          else if is_valid_field f then clean_field f
          else ""
        | none => ""

/-! ## NAME EXTRACTION — `extract_name_strict` -/

/-- The reject patterns of `extract_name_strict` (searched with
IGNORECASE), in source order. -/
def NAME_REJECT_PATTERNS : List RE := [
  -- r'curriculum\s+vita'
  phrase ["curriculum", "vita"],
  -- r'\bcv\b'
  bword "cv",
  -- r'\bresume\b'
  bword "resume",
  -- r'\bprofessor\b'
  bword "professor",
  -- r'\bdirector\b'
  bword "director",
  -- r'\bdepartment\b'
  bword "department",
  -- r'\buniversity\b'
  bword "university",
  -- r'\bcollege\b'
  bword "college",
  -- r'\bschool\b'
  bword "school",
  -- r'\beducation\b'
  bword "education",
  -- r'\bexperience\b'
  bword "experience",
  -- r'@'
  .lit '@',
  -- r'\d{3}[-.\s]?\d{3}'  (phone)
  rcat [dig 3, ropt (.cls false (fun n => n == '-'.toNat || n == '.'.toNat || spaceN n)), dig 3],
  -- r'\d{5}'  (zip code)
  dig 5,
  -- r'http'
  rstr "http",
  -- r'www\.'
  rcat [rstr "www", .lit '.'],
  -- r'\bstreet\b'
  bword "street",
  -- r'\bst\.\b'
  rcat [wb, rstr "st", .lit '.', wb],
  -- r'\bavenue\b'
  bword "avenue",
  -- r'\bave\.\b'
  rcat [wb, rstr "ave", .lit '.', wb],
  -- r'\broad\b'
  bword "road",
  -- r'\brd\.\b'
  rcat [wb, rstr "rd", .lit '.', wb],
  -- r'\bblvd\b'
  bword "blvd",
  -- r'\bbuilding\b'
  bword "building",
  -- r'\bsuite\b'
  bword "suite",
  -- r'\broom\b'
  bword "room"]

/-- The full-month alternation of the name extractor's date stripper. -/
def fullMonthAlt : RE := ralts (["January", "February", "March", "April", "May",
  "June", "July", "August", "September", "October", "November", "December"].map rstr)

/-- r'\s*(?:Revised|Updated)\s*:\s*\w+,?\s*\d{4}' (IGNORECASE) -/
def nameRevisedRE : RE := rcat [wsStar, ralts [rstr "Revised", rstr "Updated"],
  wsStar, .lit ':', wsStar, plusG wordC, ropt (.lit ','), wsStar, dig 4]

/-- r'\s*(?:January|...|December)\s*,?\s*\d{4}\s*$' (IGNORECASE) -/
def nameMonthRE : RE :=
  rcat [wsStar, fullMonthAlt, wsStar, ropt (.lit ','), wsStar, dig 4, wsStar, .eol]

/-- r',?\s*(?:Ph\.?D\.?|MBA|M\.?D\.?|J\.?D\.?|CPA|CFA|CFP).*$' (IGNORECASE) -/
def nameCredRE : RE := rcat [ropt (.lit ','), wsStar,
  ralts [rcat [rstr "Ph", dotOpt, rstr "D", dotOpt], rstr "MBA",
    rcat [rstr "M", dotOpt, rstr "D", dotOpt],
    rcat [rstr "J", dotOpt, rstr "D", dotOpt],
    rstr "CPA", rstr "CFA", rstr "CFP"],
  dotStar, .eol]

/-- `c.isalpha() or c.isspace() or c in '.-,\''` of the density count. -/
def nameAlphaLike (c : Char) : Bool :=
  alphaN c.toNat || spaceN c.toNat || c.toNat == '.'.toNat || c.toNat == '-'.toNat ||
  c.toNat == ','.toNat || c.toNat == '\x27'.toNat

/-- One candidate line of `extract_name_strict`; `none` means "continue"
(the 85% density test models the source's float comparison
`alpha_count / max(len, 1) < 0.85`, exact at these magnitudes). -/
def nameLineTry (raw : String) : Option String :=
  let line := pyStrip raw
  if line = "" || line.length < 5 then none
  else if NAME_REJECT_PATTERNS.any (fun p => reTest true p line) then none
  else
    let clean_line := reSub true nameRevisedRE repEmpty line
    let clean_line := reSub true nameMonthRE repEmpty clean_line
    let clean_line := pyStrip clean_line
    let words := pySplitWs clean_line
    if !(decide (2 ≤ words.length) && decide (words.length ≤ 5)) then none
    else if 100 * (clean_line.toList.filter nameAlphaLike).length
        < 85 * max clean_line.length 1 then none
    else
      let name := pyStripChars " ,.;:" (reSub true nameCredRE repEmpty clean_line)
      if 2 ≤ (pySplitWs name).length then some name else none

def goNames : List String → String
  | [] => ""
  | l :: rest =>
    match nameLineTry l with
    | some n => n
    | none => goNames rest

/-- `extract_name_strict`: first 15 lines of the stripped text. -/
def extract_name_strict (text : String) : String :=
  goNames ((pySplitNl (pyStrip text)).take 15)

/-! ## DATA STRUCTURES -/

/-- `Degree` — a single degree with explicit fields only (field order and
defaults as in the source dataclass). -/
structure Degree where
  degree_type : String := ""
  field       : String := ""
  institution : String := ""
  year        : String := ""
  level       : String := ""
  line_index  : Nat := 0
deriving DecidableEq, Repr

/-- `EducationRecord` — all education data for a person. -/
structure EducationRecord where
  name        : String := ""
  cv_filename : String := ""
  degrees     : List Degree := []
  notes       : List String := []
deriving DecidableEq, Repr

/-- One tuple `(line_index, degree_type, level, line_text)` of
`find_degrees_strict`. -/
structure DMention where
  line_index : Nat
  display    : String
  level      : String
  line       : String
deriving DecidableEq, Repr

/-! ## CORE EXTRACTION — `find_degrees_strict` -/

/-- The first degree pattern (in table order) matching the line, if any. -/
def firstDegreeMatch (line : String) : Option (String × String) :=
  match DEGREE_PATTERNS.find? (fun e => reTest true e.1 line) with
  | some (_, disp, lvl) => some (disp, lvl)
  | none => none

/-- The mentions contributed by one raw line: empty when the stripped line
is empty or excluded; otherwise at most one mention — the source `break`s
after the first matching pattern ("Only one degree per line"). -/
def lineMention (i : Nat) (raw : String) : List DMention :=
  if pyStrip raw = "" then []
  else if lineExcluded (pyStrip raw) then []
  else
    match firstDegreeMatch (pyStrip raw) with
    | some (disp, lvl) => [⟨i, disp, lvl, pyStrip raw⟩]
    | none => []

def findDegreesGo : Nat → List String → List DMention
  | _, [] => []
  | i, l :: rest => lineMention i l ++ findDegreesGo (i + 1) rest

/-- `find_degrees_strict`: scan the document line by line. -/
def find_degrees_strict (text : String) : List DMention :=
  findDegreesGo 0 (pySplitNl text)

/-! ## `extract_degree_with_context` -/

/-- The local section-header set of the backward school search (note: it
differs from the global `SECTION_HEADERS`). -/
def CONTEXT_SECTION_HEADERS : List String :=
  ["employment", "experience", "publications", "research",
   "teaching", "awards", "service", "references", "grants"]

/-- The backward walk for a school, stopping at section headers; the
source iterates `for i in range(1, 6)` — here `fuel` counts the remaining
iterations (5 at the start) and `i` is the current offset. -/
def lookBackGo (lines : List String) (line_idx : Nat) : Nat → Nat → String
  | 0, _ => ""
  | fuel + 1, i =>
    if line_idx < i then ""
    else
      let prev_line := pyStrip (lines.getD (line_idx - i) "")
      let prev_lower := pyLower prev_line
      if CONTEXT_SECTION_HEADERS.any (fun h => substrB h prev_lower) then ""
      else
        let inst := extract_institution_strict prev_line
        if inst = "" then lookBackGo lines line_idx fuel (i + 1) else inst

/-- Look up to 5 lines above for a school. -/
def lookBackInst (lines : List String) (line_idx : Nat) : String :=
  lookBackGo lines line_idx 5 1

/-- `extract_degree_with_context`: institution from the same line, else the
bounded backward walk; year and field from the same line, else the ±1-line
tight context (the three lines joined by spaces). -/
def extract_degree_with_context (lines : List String) (line_idx : Nat)
    (degree_type level : String) : Degree :=
  let current_line := lines.getD line_idx ""
  let tight_context := String.intercalate " "
    ((if 0 < line_idx then [lines.getD (line_idx - 1) ""] else []) ++
     [current_line] ++
     (if line_idx < lines.length - 1 then [lines.getD (line_idx + 1) ""] else []))
  let institution :=
    match extract_institution_strict current_line with
    | "" => lookBackInst lines line_idx
    | inst => inst
  let year :=
    match extract_year_strict current_line with
    | "" => extract_year_strict tight_context
    | y => y
  let field :=
    match extract_field_strict current_line degree_type with
    | "" => extract_field_strict tight_context degree_type
    | f => f
  { degree_type := degree_type, level := level, institution := institution,
    field := field, year := year, line_index := line_idx }

/-! ## `deduplicate_degrees` -/

/-- The dedup signature
`f"{type}|{level}|{field.lower() or ''}|{institution.lower() or ''}|{year}"`.
-/
def deg_sig (d : Degree) : String :=
  d.degree_type ++ "|" ++ d.level ++ "|" ++
  (if d.field = "" then "" else pyLower d.field) ++ "|" ++
  (if d.institution = "" then "" else pyLower d.institution) ++ "|" ++ d.year

def dedupGo : List Degree → List String → List Degree
  | [], _ => []
  | d :: rest, seen =>
    if seen.contains (deg_sig d) then dedupGo rest seen
    else d :: dedupGo rest (deg_sig d :: seen)

/-- `deduplicate_degrees`: keep the first occurrence of each signature. -/
def deduplicate_degrees (degrees : List Degree) : List Degree :=
  dedupGo degrees []

/-! ## `select_best_degrees` -/

/-- Python string `<` (lexicographic by code point). -/
def strLtL : List Char → List Char → Bool
  | [], [] => false
  | [], _ :: _ => true
  | _ :: _, [] => false
  | a :: as, b :: bs => if a < b then true else if b < a then false else strLtL as bs

def strLt (a b : String) : Bool := strLtL a.toList b.toList

/-- The sort key `d.year if d.year else '9999'`. -/
def yearKey (d : Degree) : String := if d.year = "" then "9999" else d.year

def yearLt (a b : Degree) : Bool := strLt (yearKey a) (yearKey b)

/-- `phd_score`: institution present +1, year present +1. -/
def phd_score (d : Degree) : Nat :=
  (if d.institution ≠ "" then 1 else 0) + (if d.year ≠ "" then 1 else 0)

/-- Key order `(-phd_score(d), year-or-9999)`, ascending. -/
def phdLt (a b : Degree) : Bool :=
  if phd_score b < phd_score a then true
  else if phd_score a < phd_score b then false
  else strLt (yearKey a) (yearKey b)

/-- Insert after all elements not strictly greater (stable insertion). -/
def insertSorted (lt : α → α → Bool) (x : α) : List α → List α
  | [] => [x]
  | y :: ys => if lt x y then x :: y :: ys else y :: insertSorted lt x ys

/-- Stable sort by a strict key order — elementwise insertion in input
order.  Python's `list.sort` (Timsort) is also a stable sort by the same
key order, so both produce the identical output list. -/
def sortStable (lt : α → α → Bool) (l : List α) : List α :=
  l.foldl (fun acc x => insertSorted lt x acc) []

/-- The PhD contribution of `select_best_degrees`: the source sorts the
PhD list by `(-phd_score, year)` only when it is non-empty (sorting an
empty list is the identity either way) and appends `phd[0]` alone. -/
def phdPick (phd0 : List Degree) : List Degree :=
  match (if phd0.isEmpty then phd0 else sortStable phdLt phd0) with
  | [] => []
  | p :: _ => [p]

/-- `select_best_degrees`: undergrad and masters sorted by year and capped
at 2; the PhD list (sorted by completeness score) contributes its head
only. -/
def select_best_degrees (degrees : List Degree) : List Degree :=
  (sortStable yearLt (degrees.filter (fun d => d.level == "undergrad"))).take 2 ++
  (sortStable yearLt (degrees.filter (fun d => d.level == "masters"))).take 2 ++
  phdPick (degrees.filter (fun d => d.level == "phd"))

/-! ## MAIN ENTRY POINT — `parse_education` -/

/-- `level_order.get(d.level, 3)`. -/
def level_order (l : String) : Nat :=
  if l = "phd" then 0 else if l = "masters" then 1
  else if l = "undergrad" then 2 else 3

/-- The final sort key `(level_order.get(level, 3), year-or-9999)`,
ascending lexicographically. -/
def levelYearLt (a b : Degree) : Bool :=
  if level_order a.level < level_order b.level then true
  else if level_order b.level < level_order a.level then false
  else strLt (yearKey a) (yearKey b)

/-- r'([a-z])([A-Z])' → r'\1 \2' (fix CamelCase). -/
def camelRE : RE := .cat (.grp 1 lowerC) (.grp 2 upperC)

/-- r'(\w)(19\d{2}|20\d{2})' → r'\1 \2' (fix year stuck to word). -/
def glueYearRE : RE := .cat (.grp 1 wordC)
  (.grp 2 (.alt (rcat [rstr "19", digC, digC]) (rcat [rstr "20", digC, digC])))

/-- r' {2,}' → ' ' (fix multiple spaces). -/
def multiSpaceRE : RE := rcat [.lit ' ', .lit ' ', starG (.lit ' ')]

/-- The minimal preprocessing of `parse_education`. -/
def preprocess (text : String) : String :=
  let text := reSub false camelRE repG1spG2 text
  let text := reSub false glueYearRE repG1spG2 text
  reSub false multiSpaceRE repSpace text

/-- The per-mention extraction and the retention filter of the main loop:
a candidate is kept only when BOTH the degree label AND the institution are
non-empty. -/
def candidate_degrees (text : String) : List Degree :=
  ((find_degrees_strict text).map (fun m =>
    extract_degree_with_context (pySplitNl text) m.line_index m.display m.level)).filter
    (fun d => decide (d.degree_type ≠ "" ∧ d.institution ≠ ""))

/-- Filtered candidates → dedup → per-level selection → final level/year
sort. -/
def assembled_degrees (text : String) : List Degree :=
  sortStable levelYearLt
    (select_best_degrees (deduplicate_degrees (candidate_degrees text)))

/-- `parse_education`: the top-level entry point.  Empty input returns the
empty record with the "No text provided" note; otherwise the preprocessed
text is scanned and assembled, and a diagnostic note is added when no
degree survives. -/
def parse_education (text : String) (filename : String := "") : EducationRecord :=
  if text = "" then
    { cv_filename := filename, notes := ["No text provided"] }
  else
    { name := extract_name_strict (preprocess text),
      cv_filename := filename,
      degrees := assembled_degrees (preprocess text),
      notes := if (assembled_degrees (preprocess text)).isEmpty then
          ["NO EDUCATION FOUND (unexpected)"]
        else [] }

/-! ## Concrete inputs used by the claims -/

/-- The two-line document of the spec's institution-fallback example. -/
def whartonText : String :=
  "The Wharton School, University of Pennsylvania\nPh.D., Finance"

/-- The same document as a line list (as handed to
`extract_degree_with_context` inside `parse_education`). -/
def whartonLines : List String :=
  ["The Wharton School, University of Pennsylvania", "Ph.D., Finance"]

/-- A one-line CV whose only year (2037) is inside the year regex's
`20[0-3]\d` range but above the documented bound 2035. -/
def overBoundText : String := "B.S., Harvard University, 2037"

/-! ## Structural lemmas about the assembler -/

theorem insertSorted_perm (lt : α → α → Bool) (x : α) (l : List α) :
    List.Perm (insertSorted lt x l) (x :: l) := by
  induction l with
  | nil => simp [insertSorted]
  | cons y ys ih =>
    unfold insertSorted
    split
    · exact List.Perm.refl _
    · exact List.Perm.trans (ih.cons y) (List.Perm.swap x y ys)

theorem foldl_insertSorted_perm (lt : α → α → Bool) :
    ∀ (l acc : List α),
      List.Perm (l.foldl (fun acc x => insertSorted lt x acc) acc) (acc ++ l) := by
  intro l
  induction l with
  | nil => intro acc; simp
  | cons x xs ih =>
    intro acc
    have h1 : List.Perm
        (xs.foldl (fun acc x => insertSorted lt x acc) (insertSorted lt x acc))
        (insertSorted lt x acc ++ xs) := ih _
    have h2 : List.Perm (insertSorted lt x acc ++ xs) ((x :: acc) ++ xs) :=
      (insertSorted_perm lt x acc).append_right xs
    have h3 : List.Perm (x :: (acc ++ xs)) (acc ++ x :: xs) :=
      List.perm_middle.symm
    exact List.Perm.trans (List.Perm.trans h1 h2) h3

theorem sortStable_perm (lt : α → α → Bool) (l : List α) :
    List.Perm (sortStable lt l) l := by
  simpa [sortStable] using foldl_insertSorted_perm lt l []

theorem mem_sortStable {lt : α → α → Bool} {a : α} {l : List α}
    (h : a ∈ sortStable lt l) : a ∈ l :=
  (sortStable_perm lt l).mem_iff.mp h

theorem mem_dedupGo {d : Degree} :
    ∀ {l : List Degree} {seen : List String}, d ∈ dedupGo l seen → d ∈ l := by
  intro l
  induction l with
  | nil => intro seen h; simp [dedupGo] at h
  | cons x xs ih =>
    intro seen h
    unfold dedupGo at h
    split at h
    · exact List.mem_cons.mpr (Or.inr (ih h))
    · rcases List.mem_cons.mp h with h1 | h1
      · exact List.mem_cons.mpr (Or.inl h1)
      · exact List.mem_cons.mpr (Or.inr (ih h1))

theorem mem_dedup {d : Degree} {l : List Degree}
    (h : d ∈ deduplicate_degrees l) : d ∈ l :=
  mem_dedupGo h

theorem mem_phdPick {d : Degree} {l0 : List Degree}
    (h : d ∈ phdPick l0) : d ∈ l0 := by
  unfold phdPick at h
  by_cases he : l0.isEmpty
  · rw [if_pos he] at h
    rcases l0 with _ | ⟨x, xs⟩
    · exact absurd h (List.not_mem_nil d)
    · simp at he
  · rw [if_neg he] at h
    rcases hs : sortStable phdLt l0 with _ | ⟨p, rest⟩
    · rw [hs] at h
      exact absurd h (List.not_mem_nil d)
    · rw [hs] at h
      rcases List.mem_singleton.mp h with rfl
      have hmem : d ∈ sortStable phdLt l0 := by
        rw [hs]
        exact List.mem_cons_self d rest
      exact mem_sortStable hmem

theorem phdPick_length_le (l0 : List Degree) : (phdPick l0).length ≤ 1 := by
  unfold phdPick
  split <;> simp

theorem mem_select_best {d : Degree} {l : List Degree}
    (h : d ∈ select_best_degrees l) : d ∈ l := by
  unfold select_best_degrees at h
  rcases List.mem_append.mp h with h1 | h1
  · rcases List.mem_append.mp h1 with h2 | h2
    · exact (List.mem_filter.mp (mem_sortStable (List.take_subset 2 _ h2))).1
    · exact (List.mem_filter.mp (mem_sortStable (List.take_subset 2 _ h2))).1
  · exact (List.mem_filter.mp (mem_phdPick h1)).1

/-- Every member of a capped, sorted, level-filtered slice carries that
level. -/
theorem level_of_mem_slice {lvl : String} {lt : Degree → Degree → Bool}
    {l : List Degree} {x : Degree} {n : Nat}
    (h : x ∈ (sortStable lt (l.filter (fun d => d.level == lvl))).take n) :
    x.level = lvl :=
  beq_iff_eq.mp (List.mem_filter.mp (mem_sortStable (List.take_subset n _ h))).2

theorem level_of_mem_phdPick {l : List Degree} {x : Degree}
    (h : x ∈ phdPick (l.filter (fun d => d.level == "phd"))) :
    x.level = "phd" :=
  beq_iff_eq.mp (List.mem_filter.mp (mem_phdPick h)).2

theorem countP_take2_le (p : Degree → Bool) (L : List Degree) :
    (L.take 2).countP p ≤ 2 := by
  have h1 := List.countP_le_length (l := L.take 2) (p := p)
  have h2 := List.length_take_le 2 L
  omega

theorem countP_zero_of_all {p : Degree → Bool} {L : List Degree}
    (hall : ∀ x ∈ L, p x = false) : L.countP p = 0 := by
  rw [List.countP_eq_zero]
  intro a ha
  simp [hall a ha]

/-- Splitting `select_best_degrees` counts into its three segments. -/
theorem countP_select (p : Degree → Bool) (l : List Degree) :
    (select_best_degrees l).countP p =
      ((sortStable yearLt (l.filter (fun d => d.level == "undergrad"))).take 2).countP p +
      ((sortStable yearLt (l.filter (fun d => d.level == "masters"))).take 2).countP p +
      (phdPick (l.filter (fun d => d.level == "phd"))).countP p := by
  unfold select_best_degrees
  rw [List.countP_append, List.countP_append]

/-- Per-level bounds on the output of `select_best_degrees`: at most two
undergraduate, two master's, one doctoral entries. -/
theorem select_best_counts (l : List Degree) :
    ((select_best_degrees l).countP (fun d => d.level == "undergrad") ≤ 2) ∧
    ((select_best_degrees l).countP (fun d => d.level == "masters") ≤ 2) ∧
    ((select_best_degrees l).countP (fun d => d.level == "phd") ≤ 1) := by
  refine ⟨?_, ?_, ?_⟩
  · rw [countP_select]
    have h1 := countP_take2_le (fun d => d.level == "undergrad")
      (sortStable yearLt (l.filter (fun d => d.level == "undergrad")))
    have h2 := countP_zero_of_all
      (p := fun d => d.level == "undergrad")
      (L := (sortStable yearLt (l.filter (fun d => d.level == "masters"))).take 2)
      (fun x hx => by simp [level_of_mem_slice hx])
    have h3 := countP_zero_of_all
      (p := fun d => d.level == "undergrad")
      (L := phdPick (l.filter (fun d => d.level == "phd")))
      (fun x hx => by simp [level_of_mem_phdPick hx])
    omega
  · rw [countP_select]
    have h1 := countP_zero_of_all
      (p := fun d => d.level == "masters")
      (L := (sortStable yearLt (l.filter (fun d => d.level == "undergrad"))).take 2)
      (fun x hx => by simp [level_of_mem_slice hx])
    have h2 := countP_take2_le (fun d => d.level == "masters")
      (sortStable yearLt (l.filter (fun d => d.level == "masters")))
    have h3 := countP_zero_of_all
      (p := fun d => d.level == "masters")
      (L := phdPick (l.filter (fun d => d.level == "phd")))
      (fun x hx => by simp [level_of_mem_phdPick hx])
    omega
  · rw [countP_select]
    have h1 := countP_zero_of_all
      (p := fun d => d.level == "phd")
      (L := (sortStable yearLt (l.filter (fun d => d.level == "undergrad"))).take 2)
      (fun x hx => by simp [level_of_mem_slice hx])
    have h2 := countP_zero_of_all
      (p := fun d => d.level == "phd")
      (L := (sortStable yearLt (l.filter (fun d => d.level == "masters"))).take 2)
      (fun x hx => by simp [level_of_mem_slice hx])
    have h3 := le_trans
      (List.countP_le_length (l := phdPick (l.filter (fun d => d.level == "phd")))
        (p := fun d => d.level == "phd"))
      (phdPick_length_le _)
    omega

/-! ## Structural lemmas about the scanner -/

theorem lineMention_length_le (i : Nat) (raw : String) :
    (lineMention i raw).length ≤ 1 := by
  unfold lineMention
  split
  · simp
  · split
    · simp
    · split <;> simp

theorem lineMention_index {e : DMention} {i : Nat} {raw : String}
    (h : e ∈ lineMention i raw) : e.line_index = i := by
  unfold lineMention at h
  split at h
  · simp at h
  · split at h
    · simp at h
    · split at h
      · rcases List.mem_singleton.mp h with rfl
        rfl
      · simp at h

theorem lineMention_excluded {i : Nat} {raw : String}
    (h : lineExcluded (pyStrip raw) = true) : lineMention i raw = [] := by
  unfold lineMention
  rw [h]
  split <;> rfl

theorem findDegreesGo_index_ge {e : DMention} :
    ∀ {ls : List String} {n : Nat}, e ∈ findDegreesGo n ls → n ≤ e.line_index := by
  intro ls
  induction ls with
  | nil => intro n h; simp [findDegreesGo] at h
  | cons l rest ih =>
    intro n h
    simp only [findDegreesGo] at h
    rcases List.mem_append.mp h with h1 | h1
    · exact le_of_eq (lineMention_index h1).symm
    · exact Nat.le_of_succ_le (ih h1)

theorem findDegreesGo_excluded :
    ∀ (ls : List String) (n j : Nat),
      lineExcluded (pyStrip (ls.getD j "")) = true →
      ∀ e ∈ findDegreesGo n ls, e.line_index ≠ n + j := by
  intro ls
  induction ls with
  | nil => intro n j _ e he; simp [findDegreesGo] at he
  | cons l rest ih =>
    intro n j hex e he
    simp only [findDegreesGo] at he
    rcases List.mem_append.mp he with h1 | h1
    · cases j with
      | zero =>
        rw [List.getD_cons_zero] at hex
        rw [lineMention_excluded hex] at h1
        simp at h1
      | succ j2 =>
        have hidx := lineMention_index h1
        omega
    · cases j with
      | zero =>
        have := findDegreesGo_index_ge h1
        omega
      | succ j2 =>
        have := ih (n + 1) j2 (by simpa using hex) e h1
        omega

theorem findDegreesGo_countP_le_one (i : Nat) :
    ∀ (ls : List String) (n : Nat),
      (findDegreesGo n ls).countP (fun e => e.line_index == i) ≤ 1 := by
  intro ls
  induction ls with
  | nil => intro n; simp [findDegreesGo]
  | cons l rest ih =>
    intro n
    simp only [findDegreesGo, List.countP_append]
    by_cases hn : n = i
    · have htail :
          (findDegreesGo (n + 1) rest).countP (fun e => e.line_index == i) = 0 := by
        rw [List.countP_eq_zero]
        intro e he
        have := findDegreesGo_index_ge he
        simp only [beq_iff_eq]
        omega
      have hhead := le_trans
        (List.countP_le_length (l := lineMention n l) (fun e => e.line_index == i))
        (lineMention_length_le n l)
      omega
    · have hhead :
          (lineMention n l).countP (fun e => e.line_index == i) = 0 := by
        rw [List.countP_eq_zero]
        intro e he
        have := lineMention_index he
        simp only [beq_iff_eq]
        omega
      have := ih (n + 1)
      omega

/-! ## Structural facts about `parse_education` -/

theorem assembled_institution_nonempty {text : String} {d : Degree}
    (h : d ∈ assembled_degrees text) : d.institution ≠ "" := by
  unfold assembled_degrees at h
  have h2 := mem_select_best (mem_sortStable h)
  have h3 := mem_dedup h2
  unfold candidate_degrees at h3
  have h4 := List.of_mem_filter h3
  simp only [decide_eq_true_eq] at h4
  exact h4.2

theorem assembled_level_bounds (text : String) :
    ((assembled_degrees text).countP (fun d => d.level == "undergrad") ≤ 2) ∧
    ((assembled_degrees text).countP (fun d => d.level == "masters") ≤ 2) ∧
    ((assembled_degrees text).countP (fun d => d.level == "phd") ≤ 1) := by
  unfold assembled_degrees
  have hperm := sortStable_perm levelYearLt
    (select_best_degrees (deduplicate_degrees (candidate_degrees text)))
  rw [hperm.countP_eq, hperm.countP_eq, hperm.countP_eq]
  exact select_best_counts _

/-! ## Claim theorems -/

/-- Claim C1: for every input text, every `Degree` in the record returned by
`parse_education` has a non-empty institution — a candidate whose
institution extraction yields the empty string is dropped by the retention
filter and never appears in the returned `degrees` sequence. -/
theorem parse_education_institution_nonempty (text : String) :
    ∀ d ∈ (parse_education text).degrees, d.institution ≠ "" := by
  intro d hd
  unfold parse_education at hd
  split at hd
  · exact absurd hd (List.not_mem_nil d)
  · simp only [] at hd
    exact assembled_institution_nonempty hd

/-- Witness for C1 at a concrete input: the Wharton document parses to a
degree with institution "Wharton", and the theorem yields its
non-emptiness. -/
theorem parse_education_institution_nonempty_witness :
    (⟨"Ph.D.", "Finance", "Wharton", "", "phd", 1⟩ : Degree) ∈
      (parse_education whartonText).degrees ∧
    (⟨"Ph.D.", "Finance", "Wharton", "", "phd", 1⟩ : Degree).institution ≠ "" := by
  have hm : (⟨"Ph.D.", "Finance", "Wharton", "", "phd", 1⟩ : Degree) ∈
      (parse_education whartonText).degrees := by decide
  exact ⟨hm, parse_education_institution_nonempty whartonText _ hm⟩

/-- Claim C2: for every input text, the record returned by `parse_education`
contains at most 2 degrees of level "undergrad", at most 2 of level
"masters", and at most 1 of level "phd". -/
theorem parse_education_level_bounds (text : String) :
    ((parse_education text).degrees.countP (fun d => d.level == "undergrad") ≤ 2) ∧
    ((parse_education text).degrees.countP (fun d => d.level == "masters") ≤ 2) ∧
    ((parse_education text).degrees.countP (fun d => d.level == "phd") ≤ 1) := by
  unfold parse_education
  split
  · simp
  · simp only []
    exact assembled_level_bounds (preprocess text)

/-- Claim C3 (code bug): at the failing input
"B.S., Harvard University, 2037" the returned record carries year "2037",
although both the module header ("YEAR VALIDATION - 4 digits 1950-2035
ONLY") and the spec bound years by 2035 — the year regex `20[0-3]\d`
admits 2036–2039. -/
theorem parse_education_year_out_of_documented_range :
    (parse_education overBoundText).degrees.map (fun d => d.year) = ["2037"] ∧
    ¬((2037 : Nat) ≤ 2035) := by
  exact ⟨by decide, by decide⟩

/-- Claim C4 (counterexample): on a line with an award/alumnus marker,
several independent years and no range, the year extractor still returns
the LAST year (1999), not the first (1985) — no award exception exists in
`extract_year_strict`. -/
theorem year_award_line_returns_last_cex :
    extract_year_strict "Alumnus Award 1985 1999" = "1999" ∧
    ("1999" : String) ≠ "1985" := by
  exact ⟨by decide, by decide⟩

/-- Claim C4 (amended): when no year range matches, `extract_year_strict`
returns the last valid standalone year (or "" when there is none),
regardless of any award/honor/alumnus marker on the line. -/
theorem year_extractor_returns_last (text : String)
    (h : rangeMatch text = none) :
    extract_year_strict text = ((validYears text).getLast?).getD "" := by
  unfold extract_year_strict
  rw [h]
  cases hl : (validYears text).getLast? <;> simp [hl]

/-- Witness for the amended C4 at the award-marked line. -/
theorem year_extractor_returns_last_witness :
    rangeMatch "Alumnus Award 1985 1999" = none ∧
    extract_year_strict "Alumnus Award 1985 1999" =
      ((validYears "Alumnus Award 1985 1999").getLast?).getD "" := by
  exact ⟨by decide, year_extractor_returns_last _ (by decide)⟩

/-- Claim C5 (counterexample): on the descending range "2012-2008" the
extractor returns the right-hand year "2008", which is not the later of
the two years (2012) — the range branch returns `group(2)`, not the
maximum. -/
theorem year_range_returns_second_cex :
    extract_year_strict "2012-2008" = "2008" ∧
    ("2008" : String) ≠ "2012" := by
  exact ⟨by decide, by decide⟩

/-- Claim C5 (amended): for every text on which the range regex matches,
the extractor returns the right-hand (second) captured year of the first
matched range — the later year exactly when the range is ascending. -/
theorem year_range_returns_second (text y1 y2 : String)
    (h : rangeMatch text = some (y1, y2)) :
    extract_year_strict text = y2 := by
  unfold extract_year_strict
  rw [h]

/-- Witness for the amended C5 at the spec's own example: the Chicago line
matches the range regex with captures ("2008", "2012"), and the theorem
yields year "2012". -/
theorem year_range_returns_second_witness :
    rangeMatch "Ph.D., Economics, University of Chicago, 2008-2012" =
      some ("2008", "2012") ∧
    extract_year_strict "Ph.D., Economics, University of Chicago, 2008-2012" = "2012" := by
  exact ⟨by decide,
    year_range_returns_second "Ph.D., Economics, University of Chicago, 2008-2012"
      "2008" "2012" (by decide)⟩

/-- Claim C6: if any exclusion pattern matches a (stripped) line of the
document, the scanner emits no `DMention` carrying that line index — the
hard veto precedes degree-token matching. -/
theorem excluded_line_yields_no_mention (text : String) (i : Nat)
    (hex : lineExcluded (pyStrip ((pySplitNl text).getD i "")) = true) :
    ∀ e ∈ find_degrees_strict text, e.line_index ≠ i := by
  intro e he
  have h := findDegreesGo_excluded (pySplitNl text) 0 i hex e he
  simpa using h

/-- Witness for C6 at the spec's example line, which matches both the
employment-title and degree-token patterns: no mention is emitted. -/
theorem excluded_line_yields_no_mention_witness :
    lineExcluded (pyStrip ((pySplitNl "Assistant Professor, MBA program").getD 0 "")) = true ∧
    ∀ e ∈ find_degrees_strict "Assistant Professor, MBA program", e.line_index ≠ 0 := by
  exact ⟨by decide,
    excluded_line_yields_no_mention "Assistant Professor, MBA program" 0 (by decide)⟩

/-- Claim C7 (counterexample): for the spec's two-line example the Ph.D.
mention's institution resolves to "Wharton" — the allow-list scan of
`extract_institution_strict` fires on the preceding line before the
"University of X" pattern is ever tried — not to
"University of Pennsylvania". -/
theorem wharton_institution_cex :
    (extract_degree_with_context whartonLines 1 "Ph.D." "phd").institution = "Wharton" ∧
    ("Wharton" : String) ≠ "University of Pennsylvania" := by
  exact ⟨by decide, by decide⟩

/-- Claim C7 (amended): parsing the two-line Wharton document yields exactly
one degree, whose institution is "Wharton" (found via the bounded backward
search, which hits the known-institution allow-list first). -/
theorem wharton_parse_institution :
    (parse_education whartonText).degrees.map (fun d => d.institution) = ["Wharton"] := by
  decide

/-- Claim C8 (counterexample): the line "B.A., M.A." contains two distinct
degree tokens (both the B.A. and the M.A. patterns match it), yet the
scanner emits exactly one mention — the first matching pattern in table
order, which is M.A. — because it `break`s after the first match. -/
theorem scanner_one_mention_two_tokens_cex :
    find_degrees_strict "B.A., M.A." =
      [⟨0, "M.A.", "masters", "B.A., M.A."⟩] ∧
    (DEGREE_PATTERNS.any (fun e => e.2.1 == "B.A." && reTest true e.1 "B.A., M.A.")) = true := by
  exact ⟨by decide, by decide⟩

/-- Claim C8 (amended): the scanner emits at most one `DMention` per line —
one mention for the first matching pattern in table order, never one per
distinct degree-token occurrence. -/
theorem scanner_at_most_one_mention_per_line (text : String) (i : Nat) :
    ((find_degrees_strict text).countP (fun e => e.line_index == i)) ≤ 1 :=
  findDegreesGo_countP_le_one i (pySplitNl text) 0

/-- Claim C9: on the empty input `parse_education` returns a record with an
empty name, an empty degrees sequence and the "No text provided"
diagnostic note (and, being a total function, raises nothing). -/
theorem parse_education_empty_input :
    parse_education "" =
      { name := "", cv_filename := "", degrees := [],
        notes := ["No text provided"] } := by
  rfl

/-- Claim C10: for every input text, the returned record's `degrees`
sequence is empty exactly when its `notes` sequence is non-empty: empty
input and degree-less documents get a diagnostic note, and any record with
at least one degree carries no notes. -/
theorem parse_education_degrees_empty_iff_notes (text : String) :
    (parse_education text).degrees = [] ↔ (parse_education text).notes ≠ [] := by
  unfold parse_education
  split
  · simp
  · rcases hA : assembled_degrees (preprocess text) with _ | ⟨x, xs⟩
    · simp [hA]
    · simp [hA]

end CVE
